import Mathlib

/-!
Verification of `src/app/processor.py` from stock-backtest-execution.

The processor exposes two functions:
  * `validate_input_message(message)` — delegates to the external
    `validate_message_schema` collaborator and raises `ValueError` on failure
    (logging the offending payload at error level), otherwise returns the
    message unchanged;
  * `simulate_execution(message)` — reads `symbol`, `action`, `price`,
    `quantity` with defaults, computes fill price, fee, execution cost and
    status, and returns the input merged with the five derived fields.

We embed Python JSON-like values as an inductive `Value`, messages as
association lists with unique-key dict semantics, Python's `float()` / `int()`
coercions as partial functions into `Option`, and `round(x, 4)` as exact
rational rounding half-to-even at four decimal places.  `simulate_execution`
returns `Except String Msg`: the error case models the `ValueError` that
Python's `float()` / `int()` raise on an unconvertible present value.
-/

attribute [local semireducible] Rat.add Rat.mul Rat.sub Rat.inv

/-- Equality of `Except` values is decidable when it is on both sides. -/
instance {ε α : Type} [DecidableEq ε] [DecidableEq α] : DecidableEq (Except ε α) :=
  fun x y =>
  match x, y with
  | Except.ok a, Except.ok b =>
      if h : a = b then Decidable.isTrue (by rw [h])
      else Decidable.isFalse (fun c => h (Except.ok.inj c))
  | Except.error a, Except.error b =>
      if h : a = b then Decidable.isTrue (by rw [h])
      else Decidable.isFalse (fun c => h (Except.error.inj c))
  | Except.ok _, Except.error _ => Decidable.isFalse (fun c => Except.noConfusion c)
  | Except.error _, Except.ok _ => Decidable.isFalse (fun c => Except.noConfusion c)

namespace StockExec

/-- A Python/JSON-like runtime value: string, int, float (modelled exactly as
a rational), bool, or None. -/
inductive Value : Type where
  | VStr : String → Value
  | VInt : Int → Value
  | VFloat : Rat → Value
  | VBool : Bool → Value
  | VNone : Value
deriving DecidableEq, Repr

open Value

/-- A message: an association list of field name to value, modelling a Python
dict (keys unique, insertion order preserved). -/
abbrev Msg : Type := List (String × Value)

/-- `d[k]` as an option: the first binding of `k`, if any. -/
def dictLookup (m : Msg) (k : String) : Option Value :=
  (m.find? (fun p => p.1 = k)).map (fun p => p.2)

/-- Python's `d.get(k, default)`. -/
def getD (m : Msg) (k : String) (d : Value) : Value :=
  (dictLookup m k).getD d

/-- `d[k] = v` on a dict: overwrite the binding of `k` in place if present
(keys of a Python dict are unique, so the first binding is the binding),
else append the new binding at the end. -/
def dictInsert : Msg → String → Value → Msg
  | [], k, v => [(k, v)]
  | p :: t, k, v => if p.1 = k then (k, v) :: t else p :: dictInsert t k v

/-- Python's `{**a, **b}`: keys of `a` in order (values overridden by `b`
where present), then the keys of `b` not in `a`, in order. -/
def dictMerge (a b : Msg) : Msg :=
  b.foldl (fun acc p => dictInsert acc p.1 p.2) a

/-- The keys of a message, in order. -/
def dictKeys (m : Msg) : List String := m.map (fun p => p.1)

/-- Numeric value of a list of decimal digit characters. -/
def digitsVal (l : List Char) : Nat :=
  l.foldl (fun a c => a * 10 + (c.toNat - 48)) 0

/-- Parse an unsigned decimal literal (`digits`, `digits.digits`, `.digits`,
`digits.`) as an exact rational; `none` when the characters are not of that
shape.  Models the core of Python's `float()` on string input. -/
def parseUnsignedDecimal (l : List Char) : Option Rat :=
  let ip := l.takeWhile (fun c => c.isDigit)
  let rest := l.dropWhile (fun c => c.isDigit)
  match rest with
  | [] => if ip.isEmpty then none else some (digitsVal ip : Rat)
  | '.' :: frac =>
      if frac.all (fun c => c.isDigit) && !(ip.isEmpty && frac.isEmpty) then
        some ((digitsVal ip : Rat) + (digitsVal frac : Rat) / (10 ^ frac.length))
      else none
  | _ => none

/-- Python's `float(s)` for a string `s` written in plain decimal notation
(optional sign, digits, optional fractional part); `none` models the
`ValueError` raised on any other string. -/
def pyFloatOfString (s : String) : Option Rat :=
  match s.toList with
  | '-' :: rest => (parseUnsignedDecimal rest).map (fun q => -q)
  | '+' :: rest => parseUnsignedDecimal rest
  | l => parseUnsignedDecimal l

/-- Python's `int(s)` for a string: optional sign then decimal digits;
`none` models the `ValueError` on any other string (note `int("10.9")`
raises in Python). -/
def pyIntOfString (s : String) : Option Int :=
  match s.toList with
  | '-' :: rest =>
      if rest ≠ [] && rest.all (fun c => c.isDigit) then
        some (-(digitsVal rest : Int))
      else none
  | '+' :: rest =>
      if rest ≠ [] && rest.all (fun c => c.isDigit) then
        some (digitsVal rest : Int)
      else none
  | l =>
      if l ≠ [] && l.all (fun c => c.isDigit) then
        some (digitsVal l : Int)
      else none

/-- Truncation toward zero, as Python's `int()` applied to a float:
`int(10.9) = 10`, `int(-10.9) = -10`. -/
def pyTrunc (q : Rat) : Int :=
  if q < 0 then Int.ceil q else Int.floor q

/-- Python's `float(v)`: numbers and bools convert, decimal strings parse,
everything else raises (`none`). -/
def pyFloat : Value → Option Rat
  | VInt n => some (n : Rat)
  | VFloat q => some q
  | VBool b => some (if b then 1 else 0)
  | VStr s => pyFloatOfString s
  | VNone => none

/-- Python's `int(v)`: ints and bools convert, floats truncate toward zero,
integer-literal strings parse, everything else raises (`none`). -/
def pyInt : Value → Option Int
  | VInt n => some n
  | VFloat q => some (pyTrunc q)
  | VBool b => some (if b then 1 else 0)
  | VStr s => pyIntOfString s
  | VNone => none

/-- Python's `v == s` for a string literal `s`: true exactly when `v` is that
string (a non-string value never equals a string in Python). -/
def pyEqStr : Value → String → Bool
  | VStr t, s => t = s
  | _, _ => false

/-- Round a rational to the nearest integer, ties to even (Python 3 `round`). -/
def roundHalfEven (q : Rat) : Int :=
  let f := Int.floor q
  let r := q - (f : Rat)
  if r < 1/2 then f
  else if 1/2 < r then f + 1
  else if f % 2 = 0 then f else f + 1

/-- Python's `round(q, 4)` on the exact rational value. -/
def round4 (q : Rat) : Rat :=
  (roundHalfEven (q * 10000) : Rat) / 10000

/-- `simulate_execution` from `src/app/processor.py`, step for step:
reads the four fields with defaults (coercing `price` with `float()` and
`quantity` with `int()`, whose failures surface as `Except.error`), computes
fill price with side-dependent slippage, per-share fee, signed execution
cost and status, and merges the input with the five derived fields. -/
def simulate_execution (message : Msg) : Except String Msg :=
  let action := getD message "action" (VStr "HOLD")
  match pyFloat (getD message "price" (VFloat 100)) with
  | none => Except.error "could not convert value to float"
  | some price =>
    match pyInt (getD message "quantity" (VInt 0)) with
    | none => Except.error "could not convert value to int"
    | some quantity =>
      let slippage_pct : Rat := 1/1000
      let fee_per_share : Rat := 5/1000
      let fill_price :=
        price * (if pyEqStr action "BUY" then 1 + slippage_pct else 1 - slippage_pct)
      let total_fee := (quantity : Rat) * fee_per_share
      let execution_cost :=
        if pyEqStr action "BUY" then
          fill_price * (quantity : Rat) + total_fee
        else
          -1 * (fill_price * (quantity : Rat) - total_fee)
      let result : Msg :=
        [("fill_price", VFloat (round4 fill_price)),
         ("slippage_pct", VFloat slippage_pct),
         ("execution_fee", VFloat (round4 total_fee)),
         ("execution_cost", VFloat (round4 execution_cost)),
         ("status", VStr (if pyEqStr action "BUY" || pyEqStr action "SELL" then
            "executed" else "noop"))]
      Except.ok (dictMerge message result)

/-- The error raised by `validate_input_message` on schema failure: Python's
`ValueError("Invalid message format")` together with the offending payload,
which the function emits at error level (`"Invalid message schema: %s"`)
for diagnostics as it raises. -/
structure InvalidInput : Type where
  text : String
  payload : Msg
deriving DecidableEq, Repr

/-- `validate_input_message` from `src/app/processor.py`, parameterised by the
external schema-checking collaborator `validate_message_schema` (defined in
`app.utils.validate_data`, outside the processor): if the check fails, raise
`ValueError("Invalid message format")` with the payload logged at error
level; otherwise return the message unchanged. -/
def validate_input_message (validate_message_schema : Msg → Bool) (message : Msg) :
    Except InvalidInput Msg :=
  if validate_message_schema message then
    Except.ok message
  else
    Except.error ⟨"Invalid message format", message⟩

/-- A pipeline failure: either the validation stage rejected the input or the
simulation stage failed a numeric coercion. -/
inductive PipelineError : Type where
  | invalidInput : InvalidInput → PipelineError
  | coercion : String → PipelineError
deriving DecidableEq, Repr

/-- Modelled from the spec: the per-message data flow of §2,
raw record → Validator → Execution Simulator → enriched record; no caller
module composing the two processor functions is present under `src/`. -/
def process_message (validate_message_schema : Msg → Bool) (message : Msg) :
    Except PipelineError Msg :=
  match validate_input_message validate_message_schema message with
  | Except.error e => Except.error (PipelineError.invalidInput e)
  | Except.ok v =>
      match simulate_execution v with
      | Except.error s => Except.error (PipelineError.coercion s)
      | Except.ok out => Except.ok out

/-! ### Dictionary lemmas -/

theorem dictLookup_nil (k : String) : dictLookup [] k = none := rfl

theorem dictLookup_cons (p : String × Value) (t : Msg) (k : String) :
    dictLookup (p :: t) k = if p.1 = k then some p.2 else dictLookup t k := by
  by_cases h : p.1 = k <;> simp [dictLookup, List.find?_cons, h]

theorem dictLookup_dictInsert (m : Msg) (k : String) (v : Value) (s : String) :
    dictLookup (dictInsert m k v) s = if s = k then some v else dictLookup m s := by
  induction m with
  | nil =>
      simp only [dictInsert, dictLookup_cons, dictLookup_nil]
      by_cases h : s = k
      · rw [if_pos h.symm, if_pos h]
      · rw [if_neg (fun c => h c.symm), if_neg h]
  | cons p t ih =>
      simp only [dictInsert]
      by_cases h : p.1 = k
      · rw [if_pos h, dictLookup_cons, dictLookup_cons]
        by_cases hs : s = k
        · rw [if_pos hs.symm, if_pos hs]
        · rw [if_neg (fun c => hs c.symm), if_neg hs,
            if_neg (fun c => hs (h.symm.trans c).symm)]
      · rw [if_neg h, dictLookup_cons, dictLookup_cons, ih]
        by_cases hp : p.1 = s
        · rw [if_pos hp, if_neg (fun c => h (hp.trans c)), if_pos hp]
        · rw [if_neg hp]
          by_cases hs : s = k
          · rw [if_pos hs, if_pos hs]
          · rw [if_neg hs, if_neg hs, if_neg hp]

theorem mem_dictKeys_dictInsert (m : Msg) (k : String) (v : Value) (s : String) :
    s ∈ dictKeys (dictInsert m k v) ↔ s = k ∨ s ∈ dictKeys m := by
  induction m with
  | nil => simp [dictInsert, dictKeys]
  | cons p t ih =>
      by_cases h : p.1 = k
      · subst h
        simp [dictInsert, dictKeys]
      · simp only [dictInsert, if_neg h, dictKeys, List.map_cons, List.mem_cons] at ih ⊢
        rw [ih]
        tauto

theorem dictMerge_nil (a : Msg) : dictMerge a [] = a := rfl

theorem dictMerge_cons (a : Msg) (p : String × Value) (t : Msg) :
    dictMerge a (p :: t) = dictMerge (dictInsert a p.1 p.2) t := rfl

/-! ### Characterisation of `simulate_execution` on successful coercions -/

theorem simulate_execution_ok (m : Msg) (p : Rat) (q : Int)
    (hp : pyFloat (getD m "price" (VFloat 100)) = some p)
    (hq : pyInt (getD m "quantity" (VInt 0)) = some q) :
    simulate_execution m = Except.ok (dictMerge m
      [("fill_price", VFloat (round4 (p *
          (if pyEqStr (getD m "action" (VStr "HOLD")) "BUY" then 1 + 1/1000
           else 1 - 1/1000)))),
       ("slippage_pct", VFloat (1/1000)),
       ("execution_fee", VFloat (round4 ((q : Rat) * (5/1000)))),
       ("execution_cost", VFloat (round4
          (if pyEqStr (getD m "action" (VStr "HOLD")) "BUY" then
             p * (1 + 1/1000) * (q : Rat) + (q : Rat) * (5/1000)
           else
             -1 * (p * (1 - 1/1000) * (q : Rat) - (q : Rat) * (5/1000))))),
       ("status", VStr (if pyEqStr (getD m "action" (VStr "HOLD")) "BUY" ||
            pyEqStr (getD m "action" (VStr "HOLD")) "SELL" then "executed"
          else "noop"))]) := by
  unfold simulate_execution
  rw [hp, hq]
  cases hb : pyEqStr (getD m "action" (VStr "HOLD")) "BUY" <;> simp [hb]

theorem pyEqStr_eq_true (v : Value) (s : String) : pyEqStr v s = true ↔ v = VStr s := by
  cases v <;> simp [pyEqStr]

theorem getD_of_lookup (m : Msg) (k : String) (d v : Value)
    (h : dictLookup m k = some v) : getD m k d = v := by
  simp [getD, h]

theorem getD_of_none (m : Msg) (k : String) (d : Value)
    (h : dictLookup m k = none) : getD m k d = d := by
  simp [getD, h]

/-! ### Claims -/

/-- C1 (counterexample): on the empty input `{}`, `simulate_execution` does
not return a record with `symbol = "UNKNOWN"` and `execution_cost = -99.9`:
its output carries only the five derived fields (no `symbol` key at all) and
its `execution_cost` is `-0.0 = 0`, since `quantity` defaults to `0`. -/
theorem C1_empty_input_counterexample :
    simulate_execution [] = Except.ok
      [("fill_price", VFloat (999/10)), ("slippage_pct", VFloat (1/1000)),
       ("execution_fee", VFloat 0), ("execution_cost", VFloat 0),
       ("status", VStr "noop")] ∧
    dictLookup
      [("fill_price", VFloat (999/10)), ("slippage_pct", VFloat (1/1000)),
       ("execution_fee", VFloat 0), ("execution_cost", VFloat 0),
       ("status", VStr "noop")] "symbol" = none ∧
    dictLookup
      [("fill_price", VFloat (999/10)), ("slippage_pct", VFloat (1/1000)),
       ("execution_fee", VFloat 0), ("execution_cost", VFloat 0),
       ("status", VStr "noop")] "execution_cost" ≠ some (VFloat (-999/10)) :=
  ⟨by decide, by decide, by decide⟩

/-- C1 (amended): on the empty input `{}`, the defaults
`symbol = "UNKNOWN"`, `action = "HOLD"`, `price = 100.0`, `quantity = 0` are
used internally, and the output consists of exactly the five derived fields
`fill_price = 99.9`, `slippage_pct = 0.001`, `execution_fee = 0.0`,
`execution_cost = -0.0 (= 0.0)`, `status = "noop"`; the absent input fields
do not appear in the output. -/
theorem C1_empty_input_amended :
    simulate_execution [] = Except.ok
      [("fill_price", VFloat (999/10)), ("slippage_pct", VFloat (1/1000)),
       ("execution_fee", VFloat 0), ("execution_cost", VFloat 0),
       ("status", VStr "noop")] := by
  decide

/-- C2: whenever the coercions of `price` and `quantity` succeed (so the
simulation returns), the output `fill_price` is
`round(price * 1.001, 4)` when the `action` field equals `"BUY"` and
`round(price * 0.999, 4)` for every other action, including `"SELL"`,
`"HOLD"`, an absent field (defaulting to `"HOLD"`), or an unrecognized
value. -/
theorem C2_fill_price (m : Msg) (p : Rat) (q : Int)
    (hp : pyFloat (getD m "price" (VFloat 100)) = some p)
    (hq : pyInt (getD m "quantity" (VInt 0)) = some q) :
    ∃ out, simulate_execution m = Except.ok out ∧
      (getD m "action" (VStr "HOLD") = VStr "BUY" →
        dictLookup out "fill_price" = some (VFloat (round4 (p * (1001/1000))))) ∧
      (getD m "action" (VStr "HOLD") ≠ VStr "BUY" →
        dictLookup out "fill_price" = some (VFloat (round4 (p * (999/1000))))) := by
  refine ⟨_, simulate_execution_ok m p q hp hq, ?_, ?_⟩ <;> intro hb
  · have hb' : pyEqStr (getD m "action" (VStr "HOLD")) "BUY" = true :=
      (pyEqStr_eq_true _ _).mpr hb
    simp +decide [hb', dictMerge_cons, dictMerge_nil, dictLookup_dictInsert]
    norm_num
  · have hb' : pyEqStr (getD m "action" (VStr "HOLD")) "BUY" = false := by
      rw [Bool.eq_false_iff]
      intro c
      exact hb ((pyEqStr_eq_true _ _).mp c)
    simp +decide [hb', dictMerge_cons, dictMerge_nil, dictLookup_dictInsert]
    norm_num

/-- Witness for C2 at a concrete BUY request. -/
theorem C2_fill_price_witness :
    pyFloat (getD [(("action" : String), VStr "BUY"), ("price", VFloat 100),
        ("quantity", VInt 10)] "price" (VFloat 100)) = some 100 ∧
    pyInt (getD [(("action" : String), VStr "BUY"), ("price", VFloat 100),
        ("quantity", VInt 10)] "quantity" (VInt 0)) = some 10 ∧
    ∃ out, simulate_execution [(("action" : String), VStr "BUY"),
        ("price", VFloat 100), ("quantity", VInt 10)] = Except.ok out ∧
      (getD [(("action" : String), VStr "BUY"), ("price", VFloat 100),
          ("quantity", VInt 10)] "action" (VStr "HOLD") = VStr "BUY" →
        dictLookup out "fill_price" = some (VFloat (round4 (100 * (1001/1000))))) ∧
      (getD [(("action" : String), VStr "BUY"), ("price", VFloat 100),
          ("quantity", VInt 10)] "action" (VStr "HOLD") ≠ VStr "BUY" →
        dictLookup out "fill_price" = some (VFloat (round4 (100 * (999/1000))))) :=
  ⟨by decide, by decide, C2_fill_price _ 100 10 (by decide) (by decide)⟩

/-- C3: whenever the coercions of `price` and `quantity` succeed, the output
`execution_cost` is `round(fill_price * quantity + total_fee, 4)` for
`action == "BUY"` and `round(-1 * (fill_price * quantity - total_fee), 4)`
for every other action (the SELL-shaped formula is reused by non-trade
actions), where `fill_price` is the unrounded `price * 1.001` resp.
`price * 0.999` and `total_fee = quantity * 0.005`. -/
theorem C3_execution_cost (m : Msg) (p : Rat) (q : Int)
    (hp : pyFloat (getD m "price" (VFloat 100)) = some p)
    (hq : pyInt (getD m "quantity" (VInt 0)) = some q) :
    ∃ out, simulate_execution m = Except.ok out ∧
      (getD m "action" (VStr "HOLD") = VStr "BUY" →
        dictLookup out "execution_cost" = some (VFloat (round4
          (p * (1001/1000) * (q : Rat) + (q : Rat) * (5/1000))))) ∧
      (getD m "action" (VStr "HOLD") ≠ VStr "BUY" →
        dictLookup out "execution_cost" = some (VFloat (round4
          (-1 * (p * (999/1000) * (q : Rat) - (q : Rat) * (5/1000)))))) := by
  refine ⟨_, simulate_execution_ok m p q hp hq, ?_, ?_⟩ <;> intro hb
  · have hb' : pyEqStr (getD m "action" (VStr "HOLD")) "BUY" = true :=
      (pyEqStr_eq_true _ _).mpr hb
    simp +decide [hb', dictMerge_cons, dictMerge_nil, dictLookup_dictInsert]
    norm_num
  · have hb' : pyEqStr (getD m "action" (VStr "HOLD")) "BUY" = false := by
      rw [Bool.eq_false_iff]
      intro c
      exact hb ((pyEqStr_eq_true _ _).mp c)
    simp +decide [hb', dictMerge_cons, dictMerge_nil, dictLookup_dictInsert]
    norm_num

/-- Witness for C3 at a concrete SELL request. -/
theorem C3_execution_cost_witness :
    pyFloat (getD [(("action" : String), VStr "SELL"), ("price", VFloat 100),
        ("quantity", VInt 10)] "price" (VFloat 100)) = some 100 ∧
    pyInt (getD [(("action" : String), VStr "SELL"), ("price", VFloat 100),
        ("quantity", VInt 10)] "quantity" (VInt 0)) = some 10 ∧
    ∃ out, simulate_execution [(("action" : String), VStr "SELL"),
        ("price", VFloat 100), ("quantity", VInt 10)] = Except.ok out ∧
      (getD [(("action" : String), VStr "SELL"), ("price", VFloat 100),
          ("quantity", VInt 10)] "action" (VStr "HOLD") = VStr "BUY" →
        dictLookup out "execution_cost" = some (VFloat (round4
          (100 * (1001/1000) * ((10 : Int) : Rat) + ((10 : Int) : Rat) * (5/1000))))) ∧
      (getD [(("action" : String), VStr "SELL"), ("price", VFloat 100),
          ("quantity", VInt 10)] "action" (VStr "HOLD") ≠ VStr "BUY" →
        dictLookup out "execution_cost" = some (VFloat (round4
          (-1 * (100 * (999/1000) * ((10 : Int) : Rat) - ((10 : Int) : Rat) * (5/1000)))))) :=
  ⟨by decide, by decide, C3_execution_cost _ 100 10 (by decide) (by decide)⟩

/-- C4: whenever the coercions of `price` and `quantity` succeed, the output
`status` is `"executed"` exactly when the `action` field is `"BUY"` or
`"SELL"`, and `"noop"` for every other action value, including the default
`"HOLD"` used when the field is absent. -/
theorem C4_status (m : Msg) (p : Rat) (q : Int)
    (hp : pyFloat (getD m "price" (VFloat 100)) = some p)
    (hq : pyInt (getD m "quantity" (VInt 0)) = some q) :
    ∃ out, simulate_execution m = Except.ok out ∧
      (dictLookup out "status" = some (VStr "executed") ↔
        getD m "action" (VStr "HOLD") = VStr "BUY" ∨
        getD m "action" (VStr "HOLD") = VStr "SELL") ∧
      (getD m "action" (VStr "HOLD") ≠ VStr "BUY" →
       getD m "action" (VStr "HOLD") ≠ VStr "SELL" →
        dictLookup out "status" = some (VStr "noop")) := by
  have toFalse : ∀ s : String, getD m "action" (VStr "HOLD") ≠ VStr s →
      pyEqStr (getD m "action" (VStr "HOLD")) s = false := by
    intro s hne
    rw [Bool.eq_false_iff]
    exact fun c => hne ((pyEqStr_eq_true _ _).mp c)
  refine ⟨_, simulate_execution_ok m p q hp hq, ?_, ?_⟩
  · constructor
    · intro hlook
      by_contra hcon
      push_neg at hcon
      have hb := toFalse "BUY" hcon.1
      have hs := toFalse "SELL" hcon.2
      simp +decide [hb, hs, dictMerge_cons, dictMerge_nil, dictLookup_dictInsert] at hlook
    · intro hor
      rcases hor with hbuy | hsell
      · have hb : pyEqStr (getD m "action" (VStr "HOLD")) "BUY" = true :=
          (pyEqStr_eq_true _ _).mpr hbuy
        simp +decide [hb, dictMerge_cons, dictMerge_nil, dictLookup_dictInsert]
      · have hs : pyEqStr (getD m "action" (VStr "HOLD")) "SELL" = true :=
          (pyEqStr_eq_true _ _).mpr hsell
        simp +decide [hs, dictMerge_cons, dictMerge_nil, dictLookup_dictInsert]
  · intro hnb hns
    have hb := toFalse "BUY" hnb
    have hs := toFalse "SELL" hns
    simp +decide [hb, hs, dictMerge_cons, dictMerge_nil, dictLookup_dictInsert]

/-- Witness for C4 at a concrete HOLD request. -/
theorem C4_status_witness :
    pyFloat (getD [(("action" : String), VStr "HOLD"), ("price", VFloat 100),
        ("quantity", VInt 10)] "price" (VFloat 100)) = some 100 ∧
    pyInt (getD [(("action" : String), VStr "HOLD"), ("price", VFloat 100),
        ("quantity", VInt 10)] "quantity" (VInt 0)) = some 10 ∧
    ∃ out, simulate_execution [(("action" : String), VStr "HOLD"),
        ("price", VFloat 100), ("quantity", VInt 10)] = Except.ok out ∧
      (dictLookup out "status" = some (VStr "executed") ↔
        getD [(("action" : String), VStr "HOLD"), ("price", VFloat 100),
          ("quantity", VInt 10)] "action" (VStr "HOLD") = VStr "BUY" ∨
        getD [(("action" : String), VStr "HOLD"), ("price", VFloat 100),
          ("quantity", VInt 10)] "action" (VStr "HOLD") = VStr "SELL") ∧
      (getD [(("action" : String), VStr "HOLD"), ("price", VFloat 100),
          ("quantity", VInt 10)] "action" (VStr "HOLD") ≠ VStr "BUY" →
       getD [(("action" : String), VStr "HOLD"), ("price", VFloat 100),
          ("quantity", VInt 10)] "action" (VStr "HOLD") ≠ VStr "SELL" →
        dictLookup out "status" = some (VStr "noop")) :=
  ⟨by decide, by decide, C4_status _ 100 10 (by decide) (by decide)⟩

/-- C5: whenever the coercions of `price` and `quantity` succeed, the output
`execution_fee` is `round(quantity * 0.005, 4)`, with `quantity` the
int-coerced field value, taken as `0` when the field is absent. -/
theorem C5_execution_fee (m : Msg) (p : Rat) (q : Int)
    (hp : pyFloat (getD m "price" (VFloat 100)) = some p)
    (hq : pyInt (getD m "quantity" (VInt 0)) = some q) :
    ∃ out, simulate_execution m = Except.ok out ∧
      dictLookup out "execution_fee" = some (VFloat (round4 ((q : Rat) * (5/1000)))) := by
  refine ⟨_, simulate_execution_ok m p q hp hq, ?_⟩
  simp +decide [dictMerge_cons, dictMerge_nil, dictLookup_dictInsert]

/-- Witness for C5 at a request with an absent `quantity` field. -/
theorem C5_execution_fee_witness :
    pyFloat (getD [(("action" : String), VStr "BUY"), ("price", VFloat 100)]
        "price" (VFloat 100)) = some 100 ∧
    pyInt (getD [(("action" : String), VStr "BUY"), ("price", VFloat 100)]
        "quantity" (VInt 0)) = some 0 ∧
    ∃ out, simulate_execution [(("action" : String), VStr "BUY"),
        ("price", VFloat 100)] = Except.ok out ∧
      dictLookup out "execution_fee" =
        some (VFloat (round4 (((0 : Int) : Rat) * (5/1000)))) :=
  ⟨by decide, by decide, C5_execution_fee _ 100 0 (by decide) (by decide)⟩

/-- C6: whenever the schema-checking collaborator reports a raw record as
failing, `validate_input_message` fails with the invalid-input error
(`ValueError("Invalid message format")`, with the original raw record emitted
for diagnostics), and the pipeline never runs the simulation on that record:
no enriched output is produced. -/
theorem C6_validation_failure (schema : Msg → Bool) (m : Msg)
    (h : schema m = false) :
    validate_input_message schema m =
      Except.error (InvalidInput.mk "Invalid message format" m) ∧
    process_message schema m =
      Except.error (PipelineError.invalidInput
        (InvalidInput.mk "Invalid message format" m)) := by
  have h1 : validate_input_message schema m =
      Except.error (InvalidInput.mk "Invalid message format" m) := by
    simp [validate_input_message, h]
  have h2 : process_message schema m =
      Except.error (PipelineError.invalidInput
        (InvalidInput.mk "Invalid message format" m)) := by
    simp [process_message, h1]
  exact ⟨h1, h2⟩

/-- Witness for C6: a schema checker rejecting everything, on the empty record. -/
theorem C6_validation_failure_witness :
    (fun _ : Msg => false) ([] : Msg) = false ∧
    validate_input_message (fun _ => false) [] =
      Except.error (InvalidInput.mk "Invalid message format" []) ∧
    process_message (fun _ => false) [] =
      Except.error (PipelineError.invalidInput
        (InvalidInput.mk "Invalid message format" [])) :=
  ⟨rfl, C6_validation_failure (fun _ => false) [] rfl⟩

/-- C7: whenever the coercions of `price` and `quantity` succeed, the output
of `simulate_execution` is the input's fields plus exactly the five derived
fields `fill_price`, `slippage_pct`, `execution_fee`, `execution_cost`,
`status` (key for key); on a collision the derived value wins (the five
derived lookups below hold unconditionally in `m`), and every other key keeps
its input value.  The input record itself is untouched: the embedding is a
pure function of `m`, returning a freshly merged record. -/
theorem C7_merge_frame (m : Msg) (p : Rat) (q : Int)
    (hp : pyFloat (getD m "price" (VFloat 100)) = some p)
    (hq : pyInt (getD m "quantity" (VInt 0)) = some q) :
    ∃ out, simulate_execution m = Except.ok out ∧
      (∀ s, s ∈ dictKeys out ↔ s ∈ dictKeys m ∨ s = "fill_price" ∨
        s = "slippage_pct" ∨ s = "execution_fee" ∨ s = "execution_cost" ∨
        s = "status") ∧
      (∀ s, s ≠ "fill_price" → s ≠ "slippage_pct" → s ≠ "execution_fee" →
        s ≠ "execution_cost" → s ≠ "status" →
        dictLookup out s = dictLookup m s) ∧
      dictLookup out "fill_price" = some (VFloat (round4 (p *
        (if pyEqStr (getD m "action" (VStr "HOLD")) "BUY" then 1 + 1/1000
         else 1 - 1/1000)))) ∧
      dictLookup out "slippage_pct" = some (VFloat (1/1000)) ∧
      dictLookup out "execution_fee" = some (VFloat (round4 ((q : Rat) * (5/1000)))) ∧
      dictLookup out "execution_cost" = some (VFloat (round4
        (if pyEqStr (getD m "action" (VStr "HOLD")) "BUY" then
           p * (1 + 1/1000) * (q : Rat) + (q : Rat) * (5/1000)
         else -1 * (p * (1 - 1/1000) * (q : Rat) - (q : Rat) * (5/1000))))) ∧
      dictLookup out "status" = some (VStr
        (if pyEqStr (getD m "action" (VStr "HOLD")) "BUY" ||
            pyEqStr (getD m "action" (VStr "HOLD")) "SELL" then "executed"
         else "noop")) := by
  refine ⟨_, simulate_execution_ok m p q hp hq, ?_, ?_, ?_, ?_, ?_, ?_, ?_⟩
  · intro s
    simp +decide [dictMerge_cons, dictMerge_nil, mem_dictKeys_dictInsert]
    tauto
  · intro s h1 h2 h3 h4 h5
    simp [dictMerge_cons, dictMerge_nil, dictLookup_dictInsert, h1, h2, h3, h4, h5]
  · simp +decide [dictMerge_cons, dictMerge_nil, dictLookup_dictInsert]
  · simp +decide [dictMerge_cons, dictMerge_nil, dictLookup_dictInsert]
  · simp +decide [dictMerge_cons, dictMerge_nil, dictLookup_dictInsert]
  · simp +decide [dictMerge_cons, dictMerge_nil, dictLookup_dictInsert]
  · simp +decide [dictMerge_cons, dictMerge_nil, dictLookup_dictInsert]

/-- Witness for C7 at a request whose `status` field collides with a derived
field: the derived value wins. -/
theorem C7_merge_frame_witness :
    pyFloat (getD [(("status" : String), VStr "stale"), ("price", VFloat 100)]
      "price" (VFloat 100)) = some 100 ∧
    pyInt (getD [(("status" : String), VStr "stale"), ("price", VFloat 100)]
      "quantity" (VInt 0)) = some 0 ∧
    ∃ out, simulate_execution [(("status" : String), VStr "stale"),
        ("price", VFloat 100)] = Except.ok out ∧
      (∀ s, s ∈ dictKeys out ↔
        s ∈ dictKeys [(("status" : String), VStr "stale"), ("price", VFloat 100)] ∨
        s = "fill_price" ∨ s = "slippage_pct" ∨ s = "execution_fee" ∨
        s = "execution_cost" ∨ s = "status") ∧
      (∀ s, s ≠ "fill_price" → s ≠ "slippage_pct" → s ≠ "execution_fee" →
        s ≠ "execution_cost" → s ≠ "status" →
        dictLookup out s =
          dictLookup [(("status" : String), VStr "stale"), ("price", VFloat 100)] s) ∧
      dictLookup out "fill_price" = some (VFloat (round4 (100 *
        (if pyEqStr (getD [(("status" : String), VStr "stale"), ("price", VFloat 100)]
            "action" (VStr "HOLD")) "BUY" then 1 + 1/1000 else 1 - 1/1000)))) ∧
      dictLookup out "slippage_pct" = some (VFloat (1/1000)) ∧
      dictLookup out "execution_fee" =
        some (VFloat (round4 (((0 : Int) : Rat) * (5/1000)))) ∧
      dictLookup out "execution_cost" = some (VFloat (round4
        (if pyEqStr (getD [(("status" : String), VStr "stale"), ("price", VFloat 100)]
            "action" (VStr "HOLD")) "BUY" then
           100 * (1 + 1/1000) * ((0 : Int) : Rat) + ((0 : Int) : Rat) * (5/1000)
         else -1 * (100 * (1 - 1/1000) * ((0 : Int) : Rat) -
           ((0 : Int) : Rat) * (5/1000))))) ∧
      dictLookup out "status" = some (VStr
        (if pyEqStr (getD [(("status" : String), VStr "stale"), ("price", VFloat 100)]
              "action" (VStr "HOLD")) "BUY" ||
            pyEqStr (getD [(("status" : String), VStr "stale"), ("price", VFloat 100)]
              "action" (VStr "HOLD")) "SELL" then "executed"
         else "noop")) :=
  ⟨by decide, by decide, C7_merge_frame _ 100 0 (by decide) (by decide)⟩

/-- C8: whenever the schema checker passes a record, `validate_input_message`
returns it unchanged, so validating an already-validated message again
succeeds and returns it unchanged (validation is idempotent). -/
theorem C8_validation_idempotent (schema : Msg → Bool) (m : Msg)
    (h : schema m = true) :
    validate_input_message schema m = Except.ok m ∧
    (validate_input_message schema m).bind (validate_input_message schema) =
      validate_input_message schema m := by
  have h1 : validate_input_message schema m = Except.ok m := by
    simp [validate_input_message, h]
  exact ⟨h1, by rw [h1]; exact h1⟩

/-- Witness for C8: a schema checker accepting everything, on a one-field record. -/
theorem C8_validation_idempotent_witness :
    (fun _ : Msg => true) ([(("symbol" : String), VStr "AAPL")] : Msg) = true ∧
    validate_input_message (fun _ => true) [(("symbol" : String), VStr "AAPL")] =
      Except.ok [(("symbol" : String), VStr "AAPL")] ∧
    (validate_input_message (fun _ => true) [(("symbol" : String), VStr "AAPL")]).bind
        (validate_input_message (fun _ => true)) =
      validate_input_message (fun _ => true) [(("symbol" : String), VStr "AAPL")] :=
  ⟨rfl, C8_validation_idempotent (fun _ => true) [(("symbol" : String), VStr "AAPL")] rfl⟩

/-- C9 (counterexample): on the input `{"price": "abc"}`, whose `price` field
is present but unparseable, `simulate_execution` does not proceed with the
default `100.0`: the `float()` coercion fails and the call raises, so no
output is produced. -/
theorem C9_unparseable_price_counterexample :
    simulate_execution [(("price" : String), VStr "abc")] =
      Except.error "could not convert value to float" := rfl

/-- C9 (amended): when the `price` field is absent, `simulate_execution`
proceeds with the default `100.0` (here visible in the fill price); when the
field is present but unparseable by `float()`, the call fails instead of
defaulting. -/
theorem C9_price_default_amended (m : Msg) (q : Int)
    (hq : pyInt (getD m "quantity" (VInt 0)) = some q) :
    (dictLookup m "price" = none →
      ∃ out, simulate_execution m = Except.ok out ∧
        (getD m "action" (VStr "HOLD") = VStr "BUY" →
          dictLookup out "fill_price" = some (VFloat (round4 (100 * (1001/1000))))) ∧
        (getD m "action" (VStr "HOLD") ≠ VStr "BUY" →
          dictLookup out "fill_price" = some (VFloat (round4 (100 * (999/1000)))))) ∧
    (∀ s, dictLookup m "price" = some (VStr s) → pyFloatOfString s = none →
      simulate_execution m = Except.error "could not convert value to float") := by
  constructor
  · intro habs
    have hp : pyFloat (getD m "price" (VFloat 100)) = some 100 := by
      rw [getD_of_none m "price" (VFloat 100) habs]
      rfl
    exact C2_fill_price m 100 q hp hq
  · intro s hs hbad
    have hp : pyFloat (getD m "price" (VFloat 100)) = none := by
      rw [getD_of_lookup m "price" (VFloat 100) (VStr s) hs]
      simpa [pyFloat] using hbad
    unfold simulate_execution
    rw [hp]

/-- Witness for C9 (amended) at the empty record. -/
theorem C9_price_default_amended_witness :
    pyInt (getD ([] : Msg) "quantity" (VInt 0)) = some 0 ∧
    ((dictLookup ([] : Msg) "price" = none →
      ∃ out, simulate_execution ([] : Msg) = Except.ok out ∧
        (getD ([] : Msg) "action" (VStr "HOLD") = VStr "BUY" →
          dictLookup out "fill_price" = some (VFloat (round4 (100 * (1001/1000))))) ∧
        (getD ([] : Msg) "action" (VStr "HOLD") ≠ VStr "BUY" →
          dictLookup out "fill_price" = some (VFloat (round4 (100 * (999/1000)))))) ∧
    (∀ s, dictLookup ([] : Msg) "price" = some (VStr s) → pyFloatOfString s = none →
      simulate_execution ([] : Msg) = Except.error "could not convert value to float")) :=
  ⟨by decide, C9_price_default_amended [] 0 (by decide)⟩

/-- C10: when the `quantity` field holds a non-integer float, the `int()`
coercion truncates it toward zero before the fee and cost are computed,
while the merged output still carries the original non-integer value under
`"quantity"`. -/
theorem C10_quantity_truncation (m : Msg) (p : Rat) (qv : Rat)
    (hp : pyFloat (getD m "price" (VFloat 100)) = some p)
    (hqv : dictLookup m "quantity" = some (VFloat qv)) :
    ∃ out, simulate_execution m = Except.ok out ∧
      dictLookup out "execution_fee" =
        some (VFloat (round4 ((pyTrunc qv : Rat) * (5/1000)))) ∧
      dictLookup out "execution_cost" = some (VFloat (round4
        (if pyEqStr (getD m "action" (VStr "HOLD")) "BUY" then
           p * (1 + 1/1000) * (pyTrunc qv : Rat) + (pyTrunc qv : Rat) * (5/1000)
         else -1 * (p * (1 - 1/1000) * (pyTrunc qv : Rat) -
           (pyTrunc qv : Rat) * (5/1000))))) ∧
      dictLookup out "quantity" = some (VFloat qv) := by
  have hq : pyInt (getD m "quantity" (VInt 0)) = some (pyTrunc qv) := by
    rw [getD_of_lookup m "quantity" (VInt 0) (VFloat qv) hqv]
    rfl
  refine ⟨_, simulate_execution_ok m p (pyTrunc qv) hp hq, ?_, ?_, ?_⟩
  · simp +decide [dictMerge_cons, dictMerge_nil, dictLookup_dictInsert]
  · simp +decide [dictMerge_cons, dictMerge_nil, dictLookup_dictInsert]
  · simp +decide [dictMerge_cons, dictMerge_nil, dictLookup_dictInsert, hqv]

/-- Witness for C10 at `quantity = 10.9`, truncated to `10`. -/
theorem C10_quantity_truncation_witness :
    pyTrunc (109/10) = 10 ∧
    pyFloat (getD [(("quantity" : String), VFloat (109/10))] "price" (VFloat 100)) =
      some 100 ∧
    dictLookup [(("quantity" : String), VFloat (109/10))] "quantity" =
      some (VFloat (109/10)) ∧
    ∃ out, simulate_execution [(("quantity" : String), VFloat (109/10))] =
        Except.ok out ∧
      dictLookup out "execution_fee" =
        some (VFloat (round4 ((pyTrunc (109/10) : Rat) * (5/1000)))) ∧
      dictLookup out "execution_cost" = some (VFloat (round4
        (if pyEqStr (getD [(("quantity" : String), VFloat (109/10))] "action"
            (VStr "HOLD")) "BUY" then
           100 * (1 + 1/1000) * (pyTrunc (109/10) : Rat) +
             (pyTrunc (109/10) : Rat) * (5/1000)
         else -1 * (100 * (1 - 1/1000) * (pyTrunc (109/10) : Rat) -
           (pyTrunc (109/10) : Rat) * (5/1000))))) ∧
      dictLookup out "quantity" = some (VFloat (109/10)) :=
  ⟨by decide, by decide, by decide,
    C10_quantity_truncation _ 100 (109/10) (by decide) (by decide)⟩

end StockExec
